import Mathlib

/-!
Verification development for pdfreactor.parsecfg: a shallow embedding of the
configuration-DSL front end (token groups, statement splitting, value
resolution, config-tree assembly, legacy method adaptation and the
parse_configuration orchestrator), translated from the Python sources in
src/pdfreactor/parsecfg.

The low-level tokenizer / group builder (module _tokensgroup) is not part of
the available sources; the TokensGroup data type, its derived properties and
the token groups of the concrete input texts used below are modelled from the
specification (spec.md sections 3 and 4.1).  Everything else is translated
from the Python source files.
-/

namespace Parsecfg

/-! ## Token groups

Modelled from the spec: the `TokensGroup` value object of the missing
`_tokensgroup.py` module.  A group has a token type (mirroring the Python
`tokenize` token kinds used by the sources) and a surface text.  The derived
properties (`is_terminator`, `opens_brace`, `closes_brace`, `expects_brace`,
`is_dotted_name`, `dotted_name`, `names_list`) follow spec.md section 3:
terminators are newlines, comments, the end marker and the `;` operator;
braces are the three ASCII bracket pairs; a dotted-name group's text is the
dot-joined identifier run.
-/

inductive TType where
  | NAME
  | NUMBER
  | OP
  | STRING
  | COMMENT
  | NEWLINE
  | ENDMARKER
deriving DecidableEq, Repr

structure TokensGroup where
  ttype : TType
  text : String
deriving DecidableEq, Repr

/-- Modelled from the spec: terminator groups are newline, comment and
end-of-input groups, and the `;` operator group. -/
def TokensGroup.is_terminator (tg : TokensGroup) : Bool :=
  tg.ttype == .COMMENT || tg.ttype == .NEWLINE || tg.ttype == .ENDMARKER
    || (tg.ttype == .OP && tg.text == ";")

/-- Modelled from the spec: which groups open a brace. -/
def TokensGroup.opens_brace (tg : TokensGroup) : Bool :=
  tg.ttype == .OP && (tg.text == "\x7b" || tg.text == "(" || tg.text == "[")

/-- Modelled from the spec: which groups close a brace. -/
def TokensGroup.closes_brace (tg : TokensGroup) : Bool :=
  tg.ttype == .OP && (tg.text == "\x7d" || tg.text == ")" || tg.text == "]")

/-- Modelled from the spec: the closing symbol matching an opening brace. -/
def TokensGroup.expects_brace (tg : TokensGroup) : String :=
  if tg.text == "\x7b" then "\x7d"
  else if tg.text == "(" then ")"
  else if tg.text == "[" then "]"
  else ""

/-- Modelled from the spec: dotted-name groups are the NAME groups. -/
def TokensGroup.is_dotted_name (tg : TokensGroup) : Bool :=
  tg.ttype == .NAME

/-- Modelled from the spec: the dot-joined name of a dotted-name group. -/
def TokensGroup.dotted_name (tg : TokensGroup) : String :=
  tg.text

/-- Split a character list at every dot (Python `text.split('.')`). -/
def splitDotAux : List Char → List Char → List String
  | [], cur => [String.mk cur]
  | '.' :: rest, cur => String.mk cur :: splitDotAux rest []
  | c :: rest, cur => splitDotAux rest (cur ++ [c])

/-- Whether a string contains a character (Python `c in text`). -/
def hasChar (s : String) (c : Char) : Bool :=
  s.toList.any fun x => x == c

/-- Lowercasing a string (Python `text.lower()` on ASCII identifiers). -/
def strLower (s : String) : String :=
  String.mk (s.toList.map Char.toLower)

/-- Modelled from the spec: the ordered identifier segments of a dotted-name
group. -/
def TokensGroup.names_list (tg : TokensGroup) : List String :=
  splitDotAux tg.text.toList []

/-! ## Values

Python values appearing in configuration trees.  A float value keeps the
literal text it was parsed from (the embedding never computes with float
values; it only records which constructor the code chose). -/

inductive Value where
  | str (s : String)
  | int (n : Int)
  | float (txt : String)
  | bool (b : Bool)
  | none
  | dict (entries : List (String × Value))
  | list (elems : List Value)
  | tuple (elems : List Value)

/-- A Python dict with string keys, as an insertion-ordered association
list. -/
abbrev AList := List (String × Value)

/-- Lookup in an association list with string keys (Python `d[k]` /
`k in d`). -/
def alGet : AList → String → Option Value
  | [], _ => Option.none
  | (k', v) :: rest, k => if k' = k then some v else alGet rest k

/-- Python `d[k] = v`: replace in place, or append a new key at the end. -/
def alSet : AList → String → Value → AList
  | [], k, v => [(k, v)]
  | (k', v') :: rest, k, v =>
    if k' = k then (k, v) :: rest else (k', v') :: alSet rest k v

/-- Python `d.setdefault(k, dflt)` restricted to its effect on the dict. -/
def setdefaultV (config : AList) (key : String) (dflt : Value) : AList :=
  match alGet config key with
  | some _ => config
  | Option.none => config ++ [(key, dflt)]

/-- Generic association-list lookup with string keys, used for the symbol
tables. -/
def slookup {β : Type} : List (String × β) → String → Option β
  | [], _ => Option.none
  | (k', v) :: rest, k => if k' = k then some v else slookup rest k

/-! ## Errors

Structured counterparts of the ValueError / TypeError / AssertionError
instances raised by the sources. -/

inductive Err where
  | unknownSymbol (text : String)
  | cannotUseValue (text : String)
  | intParseFailed (text : String)
  | floatParseFailed (text : String)
  | strEvalFailed (text : String)
  | factoryCallFailed (text : String)
  | invalidDest (text : String)
  | assertFailure (text : String)
  | factoriesConflict (keys : List (Option String))
  | incompleteAssignment
  | surplusTokens (count : Nat)
  | missingSubkey (key : String)
  | keyFactoryNotDict (key : String)
  | subkeyAndBrace (subkey : String)
  | factoryMismatch (keys : List String)
  | openingBraceExpected (text : String)
  | grammar (text : String)
  | notADict (key : String)
  | unboundLocal (name : String)
  | styleNotSupported
  | configTypeInvalid (ty : String)
  | controlTypeInvalid (ty : String)
  | unusedTypeInvalid (ty : String)
  | convertNotCallable (ty : String)
  | unsupportedOption (name : String)
  | bothTextAndFile
  | noInputGiven
  | unnamedWithNamed
  | positionalNotText (ty : String)
  | superfluousUnnamed
  | fileInputNotModelled
  | unsupportedStatements (count : Nat) (first : String) (more : Bool)
  | renderFailed
  | noArgsAccepted (methodName : String)
  | methodArgsGrammar (text : String)
  | keyErrorSymbol (name : String)
  | multipleSubkeyValues (subkey : String)
  | subkeysExpected (methodName : String)
  | notImplementedRaise
deriving Repr

/-! ## Python numeric and string literal semantics

Models of the CPython `int(text)`, `float(text)` and `eval(string-literal)`
calls made by `resolve_value`, restricted to texts the tokenizer can produce
as NUMBER / STRING token texts (no surrounding whitespace, no sign, no string
prefix letters, no triple quotes). -/

/-- A nonempty digit run with single underscores strictly between digits,
Python's `\d(_?\d)*`. -/
def groupedDigitsAux : List Char → Bool
  | [] => true
  | '_' :: c :: rest => c.isDigit && groupedDigitsAux rest
  | ['_'] => false
  | c :: rest => c.isDigit && groupedDigitsAux rest

def groupedDigits : List Char → Bool
  | [] => false
  | c :: rest => c.isDigit && groupedDigitsAux rest

/-- The numeric value of a digit run, ignoring underscores. -/
def digitsVal : List Char → Nat → Nat
  | [], acc => acc
  | '_' :: rest, acc => digitsVal rest acc
  | c :: rest, acc => digitsVal rest (acc * 10 + (c.toNat - '0'.toNat))

/-- Python `int(text)` on a decimal literal text. -/
def pyInt (s : String) : Except Err Value :=
  if groupedDigits s.toList then .ok (.int (digitsVal s.toList 0))
  else .error (.intParseFailed s)

/-- Split a character list at the first `e`/`E`, if any. -/
def splitAtExp : List Char → List Char × Option (List Char)
  | [] => ([], Option.none)
  | c :: rest =>
    if c = 'e' || c = 'E' then ([], some rest)
    else
      let r := splitAtExp rest
      (c :: r.1, r.2)

/-- Split a character list at the first `.`, if any. -/
def splitAtDot : List Char → List Char × Option (List Char)
  | [] => ([], Option.none)
  | c :: rest =>
    if c = '.' then ([], some rest)
    else
      let r := splitAtDot rest
      (c :: r.1, r.2)

def mantissaOk (l : List Char) : Bool :=
  match splitAtDot l with
  | (d, Option.none) => groupedDigits d
  | (d, some f) =>
    (!d.isEmpty || !f.isEmpty)
      && (d.isEmpty || groupedDigits d)
      && (f.isEmpty || groupedDigits f)

def exponentOk : Option (List Char) → Bool
  | Option.none => true
  | some ('+' :: d) => groupedDigits d
  | some ('-' :: d) => groupedDigits d
  | some d => groupedDigits d

def floatTextOk (s : String) : Bool :=
  let p := splitAtExp s.toList
  mantissaOk p.1 && exponentOk p.2

/-- Python `float(text)` on a NUMBER-token text.  The resulting value keeps
the literal text. -/
def pyFloat (s : String) : Except Err Value :=
  if floatTextOk s then .ok (.float s) else .error (.floatParseFailed s)

/-- One escape sequence of a Python string literal; unknown escapes keep the
backslash, as in Python. -/
def escChar (c : Char) : List Char :=
  if c = 'n' then ['\n']
  else if c = 't' then ['\t']
  else if c = 'r' then ['\r']
  else if c = '\\' then ['\\']
  else if c = '\'' then ['\'']
  else if c = '"' then ['"']
  else if c = '0' then [Char.ofNat 0]
  else ['\\', c]

def unescChars : List Char → Except Err (List Char)
  | [] => .ok []
  | ['\\'] => .error (.strEvalFailed "trailing backslash")
  | '\\' :: c :: rest =>
    match unescChars rest with
    | .error e => .error e
    | .ok tl => .ok (escChar c ++ tl)
  | c :: rest =>
    match unescChars rest with
    | .error e => .error e
    | .ok tl => .ok (c :: tl)

/-- Python `eval(text)` on a STRING-token text: strip the matching single or
double quotes and process the escapes. -/
def pyStrEval (s : String) : Except Err String :=
  match s.toList with
  | q :: rest =>
    if (q = '\'' || q = '"') && rest.getLast? == some q && !rest.isEmpty then
      match unescChars rest.dropLast with
      | .error e => .error e
      | .ok l => .ok (String.mk l)
    else .error (.strEvalFailed s)
  | [] => .error (.strEvalFailed s)

/-! ## Factories

The constructors appearing in `_configkeys._factories` and registered by
`another_factory`: the Python builtins plus the `Resource` helper. -/

inductive Factory where
  | bool
  | int
  | str
  | dict
  | list
  | tuple
  | resource
deriving DecidableEq, Repr

/-- Applying a factory to a Python string (the raw NUMBER text or the
evaluated STRING contents), as `resolve_value` does. -/
def applyFactoryStr (f : Factory) (s : String) : Except Err Value :=
  match f with
  | .bool => .ok (.bool (s != ""))
  | .int => pyInt s
  | .str => .ok (.str s)
  | .dict => if s = "" then .ok (.dict []) else .error (.factoryCallFailed s)
  | .list => .ok (.list (s.toList.map fun c => .str (String.singleton c)))
  | .tuple => .ok (.tuple (s.toList.map fun c => .str (String.singleton c)))
  | .resource => .ok (.dict [("uri", .str s)])

/-! ## Symbol tables

`SIMPLE_SYMBOLS` is built concretely in symbols.py and translated here.
`SYMBOL_STRINGS` is built there by introspecting the external PDFreactor API
class; the embedding passes it around as a parameter (`Syms`).  Its keys are
always of the dotted `Class.MEMBER` form. -/

abbrev Syms := List (String × Value)

def SIMPLE_SYMBOLS : List (String × Value) :=
  [("true", .bool true), ("on", .bool true), ("yes", .bool true),
   ("false", .bool false), ("off", .bool false), ("no", .bool false),
   ("none", .none), ("null", .none), ("nothing", .none), ("nil", .none)]

/-! ## resolve_value (convert.py lines 452-532) -/

def resolve_value (syms : Syms) (tg : TokensGroup) (fact : Option Factory) :
    Except Err Value :=
  if tg.is_dotted_name then
    match slookup syms tg.text with
    | some v => .ok v
    | Option.none =>
      match slookup SIMPLE_SYMBOLS (strLower tg.text) with
      | some v => .ok v
      | Option.none => .error (.unknownSymbol tg.text)
  else if tg.ttype == .NUMBER then
    match fact with
    | some f => applyFactoryStr f tg.text
    | Option.none =>
      if hasChar tg.text '.' then pyFloat tg.text
      else pyInt tg.text
  else if tg.ttype == .STRING then
    match pyStrEval tg.text with
    | .error e => .error e
    | .ok s =>
      match fact with
      | Option.none => .ok (.str s)
      | some f => applyFactoryStr f s
  else .error (.cannotUseValue tg.text)

/-! ## Static factory table (_configkeys.py) and the learned-factory registry
(convert.py `_more_factories` / `another_factory`)

Factory keys are tuples of path segments; a trailing `None` segment stands
for "any element of the sequence at this path". -/

abbrev FKey := List (Option String)

abbrev Registry := List (FKey × Factory)

def fkLookup : Registry → FKey → Option Factory
  | [], _ => Option.none
  | (k, f) :: rest, key => if k = key then some f else fkLookup rest key

def staticFactories : Registry :=
  [([some "disableLinks"], .bool),
   ([some "outputFormat"], .dict),
   ([some "outputFormat", some "type"], .str),
   ([some "outputFormat", some "width"], .int),
   ([some "outputFormat", some "height"], .int),
   ([some "integrationStyleSheets"], .list),
   ([some "integrationStyleSheets", Option.none], .resource),
   ([some "userStyleSheets"], .list),
   ([some "userStyleSheets", Option.none], .resource)]

/-- convert.py `another_factory` (the `add_new_factory` closure over the
module-level `_more_factories` dict, here threaded explicitly as `reg`): a
fresh key is registered, a matching re-registration is a silent no-op, and a
mismatching one raises the factories-conflict error. -/
def another_factory (reg : Registry) (fact : Factory) (keys : FKey) :
    Except Err (Registry × Nat) :=
  match fkLookup reg keys with
  | some oldfact =>
    if oldfact = fact then .ok (reg, 0) else .error (.factoriesConflict keys)
  | Option.none => .ok (reg ++ [(keys, fact)], 1)

/-! ## checked_reactor_dest (convert.py lines 315-400) -/

structure Dest where
  key : String
  subkey : Option String
  key_factory : Option Factory
  tip_factory : Option Factory
  tip_keys : List String

def checked_reactor_dest (tg : TokensGroup) : Except Err Dest :=
  match tg.names_list with
  | [] => .error (.invalidDest tg.text)
  | n0 :: rest0 =>
    match (if n0 = "config" then rest0 else n0 :: rest0) with
    | [] => .error (.invalidDest tg.text)
    | key :: rest1 =>
      let kf := fkLookup staticFactories [some key]
      match rest1 with
      | [] =>
        .ok { key := key, subkey := Option.none, key_factory := kf,
              tip_factory := kf, tip_keys := [key] }
      | subkey :: rest2 =>
        if !rest2.isEmpty then .error (.invalidDest tg.text)
        else
          let skf := fkLookup staticFactories [some key, some subkey]
          match kf with
          | Option.none =>
            .ok { key := key, subkey := some subkey,
                  key_factory := some .dict, tip_factory := skf,
                  tip_keys := [key, subkey] }
          | some .dict =>
            .ok { key := key, subkey := some subkey,
                  key_factory := some .dict, tip_factory := skf,
                  tip_keys := [key, subkey] }
          | some _ => .error (.assertFailure "key_factory is dict")

/-! ## Targets

`update_config_dict` writes either into the config dict itself or into a
subdict `config[key]` obtained through `setdefault`.  `targetGet` models the
`isinstance(dic, dict)` assertion of `set_value` (and the TypeError a
subscript assignment on a non-dict would raise); `targetPut` writes the
updated subdict back. -/

def targetGet (config : AList) (loc : Option String) : Except Err AList :=
  match loc with
  | Option.none => .ok config
  | some key =>
    match alGet config key with
    | some (.dict d) => .ok d
    | some _ => .error (.notADict key)
    | Option.none => .error (.notADict key)

def targetPut (config : AList) (loc : Option String) (d : AList) : AList :=
  match loc with
  | Option.none => d
  | some key => alSet config key (.dict d)

/-- convert.py `set_value`, generalised over the write target: check the
target is a dict, resolve the value group, write. -/
def set_value_at (syms : Syms) (config : AList) (loc : Option String)
    (k : String) (tg : TokensGroup) (fact : Option Factory) :
    Except Err AList :=
  match targetGet config loc with
  | .error e => .error e
  | .ok d =>
    match resolve_value syms tg fact with
    | .error e => .error e
    | .ok v => .ok (targetPut config loc (alSet d k v))

/-! ## Statement properties (_statement.py Statement class) -/

def stmt_is_assignment (s : List TokensGroup) : Bool :=
  match s with
  | _ :: g2 :: _ => g2.ttype == .OP && g2.text == "="
  | _ => false

def stmt_is_method_call (s : List TokensGroup) : Bool :=
  match s with
  | g1 :: g2 :: _ => g1.ttype == .NAME && g2.ttype == .OP && g2.text == "("
  | _ => false

/-- The argument-collecting loop of `Statement.method_args`; the Bool is the
parity of the running index (`true`: a comma or `)` is expected). -/
def method_args_loop : Bool → List TokensGroup → Except Err (List TokensGroup)
  | _, [] => .ok []
  | true, tg :: rest =>
    if tg.ttype != .OP || (tg.text != "," && tg.text != ")") then
      .error (.methodArgsGrammar tg.text)
    else if tg.text == ")" then .ok []
    else method_args_loop false rest
  | false, tg :: rest =>
    if tg.ttype == .OP then
      if tg.text == ")" then .ok []
      else .error (.methodArgsGrammar tg.text)
    else
      match method_args_loop true rest with
      | .error e => .error e
      | .ok tl => .ok (tg :: tl)

/-- `Statement.method_args`: `none` for non-method-call statements, otherwise
the value groups strictly between the call parentheses. -/
def method_args (s : List TokensGroup) :
    Except Err (Option (List TokensGroup)) :=
  if !stmt_is_method_call s then .ok Option.none
  else
    match method_args_loop false (s.drop 2) with
    | .error e => .error e
    | .ok args => .ok (some args)

/-! ## update_config_dict (convert.py lines 535-713) -/

/-- The `name : value` mapping-body loop of `update_config_dict`
(`more_names` branch), carrying the pending name and value groups. -/
def dictBodyLoop (syms : Syms) (expected : String) (loc : Option String) :
    Option TokensGroup → Option TokensGroup → AList → List TokensGroup →
    Except Err AList
  | _, _, config, [] => .ok config
  | nameQ, valQ, config, tg :: rest =>
    if tg.ttype == .OP then
      if tg.text == ":" then
        match nameQ with
        | Option.none => .error (.grammar tg.text)
        | some _ => dictBodyLoop syms expected loc nameQ valQ config rest
      else if tg.is_terminator then
        match rest with
        | [] => .ok config
        | _ :: _ => .error (.assertFailure "terminator not last")
      else if tg.text == "," then
        match nameQ, valQ with
        | some _, some _ => dictBodyLoop syms expected loc Option.none Option.none config rest
        | _, _ => .error (.grammar tg.text)
      else if tg.text == expected then
        match rest.head? with
        | Option.none => dictBodyLoop syms expected loc nameQ valQ config rest
        | some nx =>
          if nx.is_terminator then dictBodyLoop syms expected loc nameQ valQ config rest
          else .error (.grammar nx.text)
      else .error (.grammar tg.text)
    else
      match nameQ with
      | Option.none =>
        if tg.ttype == .NAME then dictBodyLoop syms expected loc (some tg) valQ config rest
        else .error (.grammar tg.text)
      | some nm =>
        match valQ with
        | Option.none =>
          match set_value_at syms config loc nm.text tg Option.none with
          | .error e => .error e
          | .ok config2 => dictBodyLoop syms expected loc (some nm) (some tg) config2 rest
        | some _ => .error (.grammar tg.text)

/-- The bare-value sequence-body loop of `update_config_dict`, collecting the
resolved element values. -/
def seqBodyLoop (syms : Syms) (expected : String) (elemFact : Option Factory) :
    Option TokensGroup → List Value → List TokensGroup →
    Except Err (List Value)
  | _, vals, [] => .ok vals
  | valQ, vals, tg :: rest =>
    if tg.ttype == .OP then
      if tg.is_terminator then
        match rest with
        | [] => .ok vals
        | _ :: _ => .error (.assertFailure "terminator not last")
      else if tg.text == "," || tg.text == expected then
        match valQ with
        | Option.none => .error (.grammar tg.text)
        | some _ => seqBodyLoop syms expected elemFact Option.none vals rest
      else .error (.grammar tg.text)
    else
      match valQ with
      | Option.none =>
        match resolve_value syms tg elemFact with
        | .error e => .error e
        | .ok v => seqBodyLoop syms expected elemFact (some tg) (vals ++ [v]) rest
      | some _ => .error (.grammar tg.text)

/-- Calling the tip factory on the collected sequence values
(`tip_factory(vals)`); at this point the factory is always `tuple` or
`list`. -/
def pyContainerCall (f : Factory) (vals : List Value) : Except Err Value :=
  match f with
  | .tuple => .ok (.tuple vals)
  | .list => .ok (.list vals)
  | _ => .error (.factoryCallFailed "container")

/-- The scalar right-hand-side branch of `update_config_dict`. -/
def scalarAssign (syms : Syms) (reg : Registry) (config : AList) (d : Dest)
    (valgrp : TokensGroup) (rest1 : List TokensGroup) :
    Except Err (Registry × AList × Bool) :=
  if (match rest1.head? with
      | some nx => !nx.is_terminator
      | Option.none => false) then
    .error (.surplusTokens rest1.length)
  else
    match d.subkey with
    | Option.none =>
      if d.key_factory == some .dict then .error (.missingSubkey d.key)
      else
        match resolve_value syms valgrp d.key_factory with
        | .error e => .error e
        | .ok v => .ok (reg, alSet config d.key v, true)
    | some sk =>
      match (match d.key_factory with
             | Option.none => another_factory reg .dict [some d.key]
             | some .dict => Except.ok (reg, 0)
             | some _ => Except.error (.keyFactoryNotDict d.key)) with
      | .error e => .error e
      | .ok (reg2, _) =>
        let config1 := setdefaultV config d.key (.dict [])
        match set_value_at syms config1 (some d.key) sk valgrp d.tip_factory with
        | .error e => .error e
        | .ok config2 => .ok (reg2, config2, true)

/-- The container right-hand-side branch of `update_config_dict`.
When the destination's key factory is not `dict`, the sequence result is
stored at `use_key` in the config itself; when it is `dict`, the Python
code never binds `use_key`, so reaching the final store raises (modelled by
the unbound-local error). -/
def containerAssign (syms : Syms) (reg : Registry) (config : AList) (d : Dest)
    (pa1 : TokensGroup) (rest2 : List TokensGroup) :
    Except Err (Registry × AList × Bool) :=
  let isDictKey := d.key_factory == some Factory.dict
  let loc : Option String := if isDictKey then some d.key else Option.none
  let use_key : Option String := if isDictKey then Option.none else some d.key
  let config1 := if isDictKey then setdefaultV config d.key (.dict []) else config
  if !pa1.opens_brace then .error (.openingBraceExpected pa1.text)
  else
    let expected := pa1.expects_brace
    if pa1.text == "\x7b" then
      match d.subkey with
      | some sk => .error (.subkeyAndBrace sk)
      | Option.none =>
        match (match d.tip_factory with
               | Option.none =>
                 match another_factory reg .dict (d.tip_keys.map some) with
                 | .error e => Except.error e
                 | .ok (r, _) => Except.ok r
               | some .dict => Except.ok reg
               | some _ => Except.error (.factoryMismatch d.tip_keys)) with
        | .error e => .error e
        | .ok reg2 =>
          match dictBodyLoop syms expected loc Option.none Option.none config1 rest2 with
          | .error e => .error e
          | .ok config2 => .ok (reg2, config2, true)
    else
      match (if pa1.text == "(" then
               match d.tip_factory with
               | Option.none =>
                 match another_factory reg .tuple (d.tip_keys.map some) with
                 | .error e => Except.error e
                 | .ok (r, _) => Except.ok (r, Factory.tuple)
               | some .list => Except.ok (reg, Factory.list)
               | some .tuple => Except.ok (reg, Factory.tuple)
               | some _ => Except.error (.factoryMismatch d.tip_keys)
             else
               match d.tip_factory with
               | Option.none =>
                 match another_factory reg .list (d.tip_keys.map some) with
                 | .error e => Except.error e
                 | .ok (r, _) => Except.ok (r, Factory.list)
               | some .tuple => Except.ok (reg, Factory.tuple)
               | some .list => Except.ok (reg, Factory.list)
               | some _ => Except.error (.factoryMismatch d.tip_keys)) with
      | .error e => .error e
      | .ok (reg2, tipf) =>
        let elemFact := fkLookup staticFactories (d.tip_keys.map some ++ [Option.none])
        match seqBodyLoop syms expected elemFact Option.none [] rest2 with
        | .error e => .error e
        | .ok vals =>
          match use_key with
          | Option.none => .error (.unboundLocal "use_key")
          | some k =>
            match pyContainerCall tipf vals with
            | .error e => .error e
            | .ok v => .ok (reg2, alSet config1 k v, true)

/-- convert.py `update_config_dict`: apply an assignment statement to the
config dict, threading the learned-factory registry.  Returns `false` and
leaves everything untouched for non-assignment statements. -/
def update_config_dict (syms : Syms) (reg : Registry) (config : AList)
    (statement : List TokensGroup) : Except Err (Registry × AList × Bool) :=
  if !stmt_is_assignment statement then .ok (reg, config, false)
  else
    match statement with
    | dest :: _ :: rest =>
      match checked_reactor_dest dest with
      | .error e => .error e
      | .ok d =>
        match rest with
        | [] => .error .incompleteAssignment
        | valgrp :: rest1 =>
          if valgrp.ttype != .OP then scalarAssign syms reg config d valgrp rest1
          else containerAssign syms reg config d valgrp rest1
    | _ => .error (.assertFailure "assignment with fewer than two groups")

/-- convert.py `amend_config_list`: the sequence-style assembler, which only
raises (`raise NotImplemented`). -/
def amend_config_list (_config : List Value) (_statement : List TokensGroup) :
    Except Err Unit :=
  .error .notImplementedRaise

/-! ## sequence_slide (external visaplan.tools.sequences helper)

Yields `(previous, current, next)` triples over a sequence, with `none` at
the borders; translated from its documented behaviour as used by the
sources. -/

def slideAux {α : Type} : Option α → List α →
    List (Option α × α × Option α)
  | _, [] => []
  | prev, x :: rest => (prev, x, rest.head?) :: slideAux (some x) rest

def sequence_slide {α : Type} (xs : List α) :
    List (Option α × α × Option α) :=
  slideAux Option.none xs

/-! ## generate_statements (_statement.py lines 335-351)

The source iterates `sequence_slide` over the token groups with a mutable
buffer; here the loop body is `splitterStep` folded over the slide triples.
The result is the list of emitted statements together with the final buffer
contents (which the source asserts to be empty). -/

def splitterStep (state : List (List TokensGroup) × List TokensGroup)
    (t : Option TokensGroup × TokensGroup × Option TokensGroup) :
    List (List TokensGroup) × List TokensGroup :=
  let (stmts, buf) := state
  let (prevQ, grp, _) := t
  if grp.is_terminator then
    if buf.isEmpty then state
    else
      match prevQ with
      | some p =>
        if p.opens_brace then state
        else if p.ttype == .OP && p.text == "," then state
        else (stmts ++ [buf], [])
      | Option.none => (stmts ++ [buf], [])
  else (stmts, buf ++ [grp])

def generate_statements (groups : List TokensGroup) :
    List (List TokensGroup) × List TokensGroup :=
  (sequence_slide groups).foldl splitterStep ([], [])

def statements_of (groups : List TokensGroup) : List (List TokensGroup) :=
  (generate_statements groups).1

/-- The statement splitter as the specification words it: walk the groups
tracking the previous group and the buffered statement; at a terminator,
emit the buffer unless it is empty, the previous group opens a brace, or the
previous group is a comma operator; terminators are never buffered. -/
def split_spec : Option TokensGroup → List TokensGroup → List TokensGroup →
    List (List TokensGroup) × List TokensGroup
  | _, buf, [] => ([], buf)
  | prevQ, buf, g :: rest =>
    if g.is_terminator then
      if buf.isEmpty
          || (match prevQ with
              | some p => p.opens_brace
              | Option.none => false)
          || (match prevQ with
              | some p => p.ttype == .OP && p.text == ","
              | Option.none => false) then
        split_spec (some g) buf rest
      else
        let r := split_spec (some g) [] rest
        (buf :: r.1, r.2)
    else split_spec (some g) (buf ++ [g]) rest

/-- The three skip conditions of the splitter at a terminator group, as the
specification words them: nothing buffered yet, or the previous group opens
a brace, or the previous group is a comma operator. -/
def skipCond (prevQ : Option TokensGroup) (buf : List TokensGroup) : Bool :=
  buf.isEmpty
    || (match prevQ with
        | some p => p.opens_brace
        | Option.none => false)
    || (match prevQ with
        | some p => p.ttype == TType.OP && p.text == ","
        | Option.none => false)

/-- The last element of a list. -/
def lastElem {α : Type} : List α → Option α
  | [] => Option.none
  | [a] => some a
  | _ :: b :: r => lastElem (b :: r)

/-- The second-to-last element of a list. -/
def penult {α : Type} : List α → Option α
  | [] => Option.none
  | [_] => Option.none
  | [a, _] => some a
  | _ :: b :: c :: r => penult (b :: c :: r)

/-! ## Statement rendering (_statement.py `Statement.__str__`)

Returns `none` on the input shapes where the Python code would crash (a
comma as the final group dereferences `None`). -/

def stmt_str_go : List TokensGroup → Option (List String)
  | [] => some []
  | cur :: rest =>
    let nextQ := rest.head?
    match stmt_str_go rest with
    | Option.none => Option.none
    | some tl =>
      let piece := fun (ins app : Bool) =>
        some (((if ins then " " else "") ++ cur.text
                ++ (if app && nextQ.isSome then " " else "")) :: tl)
      if cur.ttype == .OP then
        if cur.text == "=" then piece true true
        else if cur.text == "," then
          match nextQ with
          | Option.none => Option.none
          | some nx =>
            if !nx.closes_brace then piece false true
            else if nx.text == ")" then piece false false
            else some tl
        else if cur.opens_brace then piece false false
        else if cur.closes_brace then piece false false
        else piece false true
      else if cur.ttype == .NAME then
        match nextQ with
        | some nx => if nx.ttype == .NAME then piece false true else piece false false
        | Option.none => piece false false
      else piece false false

def stmt_str (s : List TokensGroup) : Option String :=
  (stmt_str_go s).map String.join

/-! ## Input-option extraction (_args.py `extract_input_specs`) -/

inductive PosArg where
  | noneA
  | strA (s : String)
  | otherA (tyName : String)

inductive InputSpec where
  | text (t : String)
  | file (f : String)

def extract_input_specs (args : List PosArg)
    (textOpt fileOpt : Option String) : Except Err InputSpec :=
  match textOpt, fileOpt with
  | some _, some _ => .error .bothTextAndFile
  | some t, Option.none =>
    if !args.isEmpty then .error .unnamedWithNamed else .ok (.text t)
  | Option.none, some f =>
    if !args.isEmpty then .error .unnamedWithNamed else .ok (.file f)
  | Option.none, Option.none =>
    match args with
    | [] => .error .noInputGiven
    | a :: rest =>
      match (match a with
             | .noneA => Except.ok (InputSpec.text "")
             | .strA s => Except.ok (InputSpec.text s)
             | .otherA ty => Except.error (Err.positionalNotText ty)) with
      | .error e => .error e
      | .ok r => if !rest.isEmpty then .error .superfluousUnnamed else .ok r

/-! ## Option validation (convert.py `inspect_parse_specs`) -/

/-- A conversion hook `bool <= f(statement, config, control)`; Python hooks
mutate `config`/`control` in place, so the model returns them alongside the
handled flag. -/
abbrev ConvertFn :=
  List TokensGroup → AList → AList → Except Err (Bool × AList × AList)

inductive ConfigOpt where
  | dict (d : AList)
  | list (l : List Value)
  | other (ty : String)

inductive ControlOpt where
  | dict (d : AList)
  | other (ty : String)

inductive UnusedOpt where
  | list (l : List (List TokensGroup))
  | other (ty : String)

inductive ConvertOpt where
  | fn (f : ConvertFn)
  | noneV
  | other (ty : String)

structure Kw where
  config : Option ConfigOpt := Option.none
  control : Option ControlOpt := Option.none
  unused : Option UnusedOpt := Option.none
  convert : Option ConvertOpt := Option.none
  extra : List String := []

structure Opts where
  config : AList
  control : AList
  unusedL : List (List TokensGroup)
  convert : Option ConvertFn
  no_control : Bool
  no_unused : Bool
  return_configuration : Bool

/-- The smallest string of a nonempty list (`sorted(invalid)[0]`). -/
def minString (x : String) (l : List String) : String :=
  l.foldl (fun a b => if a ≤ b then a else b) x

def inspect_parse_specs (kw : Kw) : Except Err Opts :=
  let rc := kw.config.isNone
  match (match kw.config with
         | Option.none => Except.ok ([] : AList)
         | some (.dict d) => Except.ok d
         | some (.list _) => Except.error Err.styleNotSupported
         | some (.other ty) => Except.error (Err.configTypeInvalid ty)) with
  | .error e => .error e
  | .ok config =>
    match (match kw.control with
           | Option.none => Except.ok ([] : AList)
           | some (.dict d) => Except.ok d
           | some (.other ty) => Except.error (Err.controlTypeInvalid ty)) with
    | .error e => .error e
    | .ok control =>
      match (match kw.unused with
             | Option.none => Except.ok ([] : List (List TokensGroup))
             | some (.list l) => Except.ok l
             | some (.other ty) => Except.error (Err.unusedTypeInvalid ty)) with
      | .error e => .error e
      | .ok unusedL =>
        match (match kw.convert with
               | Option.none => Except.ok (Option.none : Option ConvertFn)
               | some .noneV => Except.ok (Option.none : Option ConvertFn)
               | some (.fn f) => Except.ok (some f)
               | some (.other ty) => Except.error (Err.convertNotCallable ty)) with
        | .error e => .error e
        | .ok convert =>
          match kw.extra with
          | e :: es => .error (.unsupportedOption (minString e es))
          | [] =>
            .ok { config := config, control := control, unusedL := unusedL,
                  convert := convert, no_control := kw.control.isNone,
                  no_unused := kw.unused.isNone, return_configuration := rc }

/-! ## The statement-processing loop and the orchestrator
(convert.py `parse_configuration` lines 165-192) -/

/-- Trying the optional convert hook on one statement
(`convert is not None and convert(stmt, config, control)`). -/
def try_convert (cv : Option ConvertFn) (s : List TokensGroup)
    (config control : AList) : Except Err (Bool × AList × AList) :=
  match cv with
  | Option.none => Except.ok (false, config, control)
  | some f => f s config control

def run_statements (syms : Syms) (cv : Option ConvertFn) :
    Registry → AList → AList → List (List TokensGroup) →
    List (List TokensGroup) →
    Except Err (Registry × AList × AList × List (List TokensGroup))
  | reg, config, control, unusedL, [] => .ok (reg, config, control, unusedL)
  | reg, config, control, unusedL, s :: rest =>
    match try_convert cv s config control with
    | .error e => .error e
    | .ok (claimed, config1, control1) =>
      if claimed then run_statements syms cv reg config1 control1 unusedL rest
      else if !stmt_is_assignment s then
        run_statements syms cv reg config1 control1 (unusedL ++ [s]) rest
      else
        match update_config_dict syms reg config1 s with
        | .error e => .error e
        | .ok (reg2, config2, _) =>
          run_statements syms cv reg2 config2 control1 unusedL rest

/-- The statement loop followed by the leftover-unused check and the
return-value shaping of `parse_configuration`. -/
def parse_configuration_core (syms : Syms) (cv : Option ConvertFn)
    (no_unused return_configuration : Bool) (reg : Registry)
    (config control : AList) (unused0 : List (List TokensGroup))
    (stmts : List (List TokensGroup)) :
    Except Err (Registry × Option AList × AList × List (List TokensGroup)) :=
  match run_statements syms cv reg config control unused0 stmts with
  | .error e => .error e
  | .ok (reg2, config2, control2, unused2) =>
    match unused2 with
    | [] =>
      .ok (reg2, if return_configuration then some config2 else Option.none,
           control2, unused2)
    | first :: more =>
      if no_unused then
        match stmt_str first with
        | some s =>
          .error (.unsupportedStatements (more.length + 1) s (!more.isEmpty))
        | Option.none => .error .renderFailed
      else
        .ok (reg2, if return_configuration then some config2 else Option.none,
             control2, unused2)

/-- convert.py `parse_configuration`: extract the input specs, validate the
options, run the statement stream through the loop.  The external tokenizer
and group builder (missing `_tokensgroup.py`) is passed in as `tok`. -/
def parse_configuration (tok : String → List TokensGroup) (syms : Syms)
    (reg : Registry) (kw : Kw) (args : List PosArg)
    (textOpt fileOpt : Option String) :
    Except Err (Registry × Option AList × AList × List (List TokensGroup)) :=
  match extract_input_specs args textOpt fileOpt with
  | .error e => .error e
  | .ok ispec =>
    match inspect_parse_specs kw with
    | .error e => .error e
    | .ok opts =>
      match ispec with
      | .file _ => .error .fileInputNotModelled
      | .text t =>
        parse_configuration_core syms opts.convert opts.no_unused
          opts.return_configuration reg opts.config opts.control opts.unusedL
          (statements_of (tok t))

/-! ## Legacy method adapter (oldmethods.py)

The `_MAP2` signature table, translated entry for entry, and
`convert_api_method`.  The `OLD2NEW` legacy-symbol table (oldsymbols.py) maps
deprecated ALL_CAPS names to current dotted names (or, for one entry, to
`None`); like `SYMBOL_STRINGS`, it is passed as a parameter. -/

abbrev Old2New := List (String × Option String)

inductive XForm where
  | negate
deriving DecidableEq, Repr

/-- Python truthiness of the values the adapter can see; for floats the
literal text is inspected (an all-zero literal is falsy). -/
def pyTruthy : Value → Bool
  | .str s => s != ""
  | .int n => n != 0
  | .float txt => !(txt.toList.all fun c => c = '0' || c = '.' || c = '_')
  | .bool b => b
  | .none => false
  | .dict d => !d.isEmpty
  | .list l => !l.isEmpty
  | .tuple l => !l.isEmpty

/-- oldmethods.py `negate` (Python `not val`). -/
def applyXForm : Option XForm → Value → Value
  | Option.none, v => v
  | some .negate, v => .bool (!pyTruthy v)

/-- One positional-argument entry of a `_MAP2` method spec. -/
structure ASpec where
  key : String
  subkey : Option String := Option.none
  xform : Option XForm := Option.none

/-- One entry of a list-append model (`'model'` sub-table). -/
structure MSpec where
  subkey : Option String
  xform : Option XForm := Option.none

inductive MInfo where
  | noArgs (key : String) (subkey : Option String) (value : Value)
  | args (specs : List ASpec)
  | listM (key : String) (model : List MSpec)

def MAP2 : List (String × MInfo) :=
  [("enableDebugMode", .noArgs "debugSettings" (some "appendLogs") (.bool true)),
   ("setOutputFormat", .args
     [{ key := "outputType", subkey := some "type" },
      { key := "outputType", subkey := some "width" },
      { key := "outputType", subkey := some "height" }]),
   ("setCleanupTool", .args [{ key := "cleanupTool" }]),
   ("setEncoding", .args [{ key := "encoding" }]),
   ("setJavaScriptMode", .args [{ key := "javaScriptMode" }]),
   ("setAddBookmarks", .args [{ key := "addBookmarks" }]),
   ("setAddLinks", .args [{ key := "disableLinks", xform := some .negate }]),
   ("setAppendLog", .args [{ key := "debugSettings", subkey := some "appendLogs" }]),
   ("setDocumentType", .args [{ key := "documentType" }]),
   ("setLicenseKey", .args [{ key := "licenseKey" }]),
   ("setLogLevel", .args [{ key := "logLevel" }]),
   ("addUserScript", .listM "userScripts"
     [{ subkey := some "content" },
      { subkey := some "uri" },
      { subkey := some "beforeDocumentScripts" }])]

/-- Argument-value resolution of `convert_api_method`: identifier arguments
are first translated through the legacy-name table into the symbol table,
then looked up in the symbol table directly, before falling back to
`resolve_value`. -/
def resolve_method_arg (syms : Syms) (o2n : Old2New) (valgrp : TokensGroup) :
    Except Err Value :=
  if valgrp.ttype == .NAME then
    match slookup o2n valgrp.dotted_name with
    | some (some newName) =>
      match slookup syms newName with
      | some v => .ok v
      | Option.none => .error (.keyErrorSymbol newName)
    | some Option.none => .error (.keyErrorSymbol "None")
    | Option.none =>
      match slookup syms valgrp.dotted_name with
      | some v => .ok v
      | Option.none => resolve_value syms valgrp Option.none
  else resolve_value syms valgrp Option.none

/-- The positional-argument loop of the general `_MAP2` branch. -/
def generalArgsLoop (syms : Syms) (o2n : Old2New) (specs : List ASpec) :
    Nat → AList → List TokensGroup → Except Err AList
  | _, config, [] => .ok config
  | i, config, valgrp :: rest =>
    match resolve_method_arg syms o2n valgrp with
    | .error e => .error e
    | .ok v0 =>
      match specs.get? i with
      | Option.none => .error (.assertFailure "argument index out of range")
      | some nfo =>
        let v := applyXForm nfo.xform v0
        match nfo.subkey with
        | Option.none =>
          generalArgsLoop syms o2n specs (i + 1) (alSet config nfo.key v) rest
        | some sk =>
          let config1 := setdefaultV config nfo.key (.dict [])
          match targetGet config1 (some nfo.key) with
          | .error e => .error e
          | .ok dsub =>
            generalArgsLoop syms o2n specs (i + 1)
              (targetPut config1 (some nfo.key) (alSet dsub sk v)) rest

/-- The list-append loop (`make_list` branch, e.g. `addUserScript`): builds
up the appended element list, the pending record dict, the `done` flag and
the direct value of a subkey-less first argument. -/
def listModelLoop (syms : Syms) (o2n : Old2New) (model : List MSpec)
    (methodName : String) :
    Nat → List Value → Option AList → Bool → Option Value →
    List TokensGroup →
    Except Err (List Value × Option AList × Bool × Option Value)
  | _, l, dQ, done, direct, [] => .ok (l, dQ, done, direct)
  | i, l, dQ, done, direct, valgrp :: rest =>
    match resolve_method_arg syms o2n valgrp with
    | .error e => .error e
    | .ok v0 =>
      match model.get? i with
      | Option.none => .error (.assertFailure "model index out of range")
      | some nfo =>
        let v := applyXForm nfo.xform v0
        match nfo.subkey with
        | Option.none =>
          if i != 0 then .error (.subkeysExpected methodName)
          else listModelLoop syms o2n model methodName (i + 1) (l ++ [v]) dQ
                 true (some v) rest
        | some sk =>
          if done then .error (.subkeysExpected methodName)
          else
            match dQ with
            | Option.none =>
              listModelLoop syms o2n model methodName (i + 1) l
                (some [(sk, v)]) done direct rest
            | some d =>
              match alGet d sk with
              | some _ => .error (.multipleSubkeyValues sk)
              | Option.none =>
                listModelLoop syms o2n model methodName (i + 1) l
                  (some (alSet d sk v)) done direct rest

/-- oldmethods.py `convert_api_method`: translate a legacy method-call
statement into config assignments; returns the handled flag together with
the (possibly updated) config dict and the untouched control dict. -/
def convert_api_method (syms : Syms) (o2n : Old2New)
    (statement : List TokensGroup) (config control : AList) :
    Except Err (Bool × AList × AList) :=
  if !stmt_is_method_call statement then .ok (false, config, control)
  else
    match statement with
    | [] => .ok (false, config, control)
    | grp0 :: _ =>
      let the_name := grp0.dotted_name
      match slookup MAP2 the_name with
      | Option.none => .ok (false, config, control)
      | some (.noArgs key subkeyQ value) =>
        match method_args statement with
        | .error e => .error e
        | .ok Option.none => .error (.assertFailure "method_args on non-call")
        | .ok (some (_ :: _)) => .error (.noArgsAccepted the_name)
        | .ok (some []) =>
          match subkeyQ with
          | Option.none => .ok (true, alSet config key value, control)
          | some sk =>
            let config1 := setdefaultV config key (.dict [])
            match targetGet config1 (some key) with
            | .error e => .error e
            | .ok d =>
              .ok (true, targetPut config1 (some key) (alSet d sk value),
                   control)
      | some (.args specs) =>
        match method_args statement with
        | .error e => .error e
        | .ok Option.none => .error (.assertFailure "method_args on non-call")
        | .ok (some args) =>
          if args.length > specs.length then .ok (false, config, control)
          else
            match generalArgsLoop syms o2n specs 0 config args with
            | .error e => .error e
            | .ok config2 => .ok (true, config2, control)
      | some (.listM key model) =>
        match method_args statement with
        | .error e => .error e
        | .ok Option.none => .error (.assertFailure "method_args on non-call")
        | .ok (some args) =>
          if args.length > model.length then .ok (false, config, control)
          else
            let config1 := setdefaultV config key (.list [])
            match alGet config1 key with
            | some (.list l0) =>
              match listModelLoop syms o2n model the_name 0 l0 Option.none
                      false Option.none args with
              | .error e => .error e
              | .ok (l1, dQ, done, direct) =>
                if done then
                  match direct with
                  | some v => .ok (true, alSet config1 key v, control)
                  | Option.none => .error (.assertFailure "done without value")
                else
                  .ok (true,
                       alSet config1 key
                         (.list (l1 ++ [match dQ with
                                        | Option.none => Value.none
                                        | some d => Value.dict d])),
                       control)
            | _ => .error (.notADict key)

/-- `convert_api_method` packaged as a `convert` hook for
`parse_configuration`. -/
def legacy_convert (syms : Syms) (o2n : Old2New) : ConvertFn :=
  fun s config control => convert_api_method syms o2n s config control

/-! ## Concrete token groups

Shorthand constructors, and the token groups of the concrete input texts
used by the claims.  The group lists are modelled from the spec (sections
4.1 and 6): the external tokenizer and group builder merge dotted-name runs
into one NAME group, keep operators and brace symbols as OP groups, keep
literals as NUMBER/STRING groups with their surface text, and terminate
every input with a newline and an end marker. -/

def nameGroup (s : String) : TokensGroup := ⟨.NAME, s⟩

def numGroup (s : String) : TokensGroup := ⟨.NUMBER, s⟩

def strGroup (s : String) : TokensGroup := ⟨.STRING, s⟩

def opGroup (s : String) : TokensGroup := ⟨.OP, s⟩

def newlineGroup : TokensGroup := ⟨.NEWLINE, "\n"⟩

def endGroup : TokensGroup := ⟨.ENDMARKER, ""⟩

/-- Modelled from the spec: the token groups of the empty input text. -/
def groups_empty_text : List TokensGroup := [endGroup]

/-- Modelled from the spec: the token groups of
`config.outputFormat = \x7b type: "PNG", width: 123 \x7d`. -/
def groups_brace_notation : List TokensGroup :=
  [nameGroup "config.outputFormat", opGroup "=", opGroup "\x7b",
   nameGroup "type", opGroup ":", strGroup "\"PNG\"", opGroup ",",
   nameGroup "width", opGroup ":", numGroup "123", opGroup "\x7d",
   newlineGroup, endGroup]

/-- Modelled from the spec: the token groups of the two-line text
`config.outputFormat.type = "PNG"` / `config.outputFormat.width = 123`. -/
def groups_dotted_notation : List TokensGroup :=
  [nameGroup "config.outputFormat.type", opGroup "=", strGroup "\"PNG\"",
   newlineGroup,
   nameGroup "config.outputFormat.width", opGroup "=", numGroup "123",
   newlineGroup, endGroup]

/-- Modelled from the spec: the token groups of `setAddLinks(yes)`. -/
def groups_setAddLinks_yes : List TokensGroup :=
  [nameGroup "setAddLinks", opGroup "(", nameGroup "yes", opGroup ")",
   newlineGroup, endGroup]

/-- Modelled from the spec: the token groups of `enableDebugMode()`. -/
def groups_enableDebugMode : List TokensGroup :=
  [nameGroup "enableDebugMode", opGroup "(", opGroup ")",
   newlineGroup, endGroup]

/-- The assignment statement `a = \x7b x: 1 \x7d` (groups as produced by the
statement splitter, terminator stripped). -/
def stmt_a_dict : List TokensGroup :=
  [nameGroup "a", opGroup "=", opGroup "\x7b",
   nameGroup "x", opGroup ":", numGroup "1", opGroup "\x7d"]

/-- The assignment statement `a = (1, 2)`. -/
def stmt_a_tuple : List TokensGroup :=
  [nameGroup "a", opGroup "=", opGroup "(",
   numGroup "1", opGroup ",", numGroup "2", opGroup ")"]

/-- The assignment statement `a = \x7b y: 2 \x7d` (same container kind as
`stmt_a_dict` at the same path). -/
def stmt_a_dict2 : List TokensGroup :=
  [nameGroup "a", opGroup "=", opGroup "\x7b",
   nameGroup "y", opGroup ":", numGroup "2", opGroup "\x7d"]

/-- A control-command statement (`strict on`), neither an assignment nor a
method call. -/
def stmt_strict_on : List TokensGroup :=
  [nameGroup "strict", nameGroup "on"]

/-- A token-group sequence that ends in a terminator whose immediately
preceding group opens a brace: `appendix (` followed by a newline. -/
def groups_dangling_open : List TokensGroup :=
  [nameGroup "appendix", opGroup "(", newlineGroup]

/-- A `parseConfiguration` call with no named options. -/
def defaultKw : Kw :=
  ⟨Option.none, Option.none, Option.none, Option.none, []⟩

/-- A `parseConfiguration` call whose only named option installs the legacy
method adapter as the `convert` hook. -/
def legacyKw (syms : Syms) (o2n : Old2New) : Kw :=
  ⟨Option.none, Option.none, Option.none,
   some (.fn (legacy_convert syms o2n)), []⟩

/-! # Theorems -/

/-! ## Registry helper lemmas -/

theorem fkLookup_append_self (reg : Registry) (k : FKey) (f : Factory)
    (h : fkLookup reg k = Option.none) :
    fkLookup (reg ++ [(k, f)]) k = some f := by
  induction reg with
  | nil => simp [fkLookup]
  | cons p rest ih =>
    rw [fkLookup] at h
    by_cases hk : p.1 = k
    · simp [hk] at h
    · rw [if_neg hk] at h
      simpa [fkLookup, hk] using ih h

theorem another_factory_fresh (reg : Registry) (f : Factory) (k : FKey)
    (h : fkLookup reg k = Option.none) :
    another_factory reg f k = .ok (reg ++ [(k, f)], 1) := by
  unfold another_factory
  rw [h]

theorem another_factory_same (reg : Registry) (f : Factory) (k : FKey)
    (h : fkLookup reg k = some f) :
    another_factory reg f k = .ok (reg, 0) := by
  unfold another_factory
  rw [h]
  simp

theorem another_factory_mismatch (reg : Registry) (f g : Factory) (k : FKey)
    (h : fkLookup reg k = some g) (hne : g ≠ f) :
    another_factory reg f k = .error (.factoriesConflict k) := by
  unfold another_factory
  rw [h]
  simp [hne]

/-- C5: a `config` option that is a sequence (list-rooted) makes
`parseConfiguration` fail with the style-not-supported error during option
validation, for every input whose input specs themselves are acceptable and
regardless of every other option and of the text's statements; and every
invocation of the sequence-style assembler `amend_config_list` fails rather
than silently doing nothing. -/
theorem c5_sequence_config_rejected :
    (∀ (tok : String → List TokensGroup) (syms : Syms) (reg : Registry)
       (l : List Value) (oc : Option ControlOpt) (ou : Option UnusedOpt)
       (ov : Option ConvertOpt) (ex : List String) (args : List PosArg)
       (tQ fQ : Option String) (isp : InputSpec),
       extract_input_specs args tQ fQ = .ok isp →
       parse_configuration tok syms reg ⟨some (.list l), oc, ou, ov, ex⟩
           args tQ fQ = .error .styleNotSupported)
    ∧ (∀ (config : List Value) (s : List TokensGroup),
       amend_config_list config s = .error .notImplementedRaise) := by
  constructor
  · intro tok syms reg l oc ou ov ex args tQ fQ isp hex
    unfold parse_configuration
    rw [hex]
    rfl
  · intro config s
    rfl

/-- C5 witness: the claim instantiated at a concrete call: a list-valued
`config` option with an otherwise valid empty-text call, and a concrete
assembler invocation. -/
theorem c5_sequence_config_rejected_witness :
    parse_configuration (fun _ => groups_empty_text) [] []
        ⟨some (.list []), Option.none, Option.none, Option.none, []⟩
        [PosArg.strA ""] Option.none Option.none = .error .styleNotSupported
    ∧ amend_config_list [] stmt_a_dict = .error .notImplementedRaise := by
  constructor
  · exact c5_sequence_config_rejected.1 (fun _ => groups_empty_text) [] [] []
      Option.none Option.none Option.none [] [PosArg.strA ""] Option.none
      Option.none (.text "") rfl
  · exact c5_sequence_config_rejected.2 [] stmt_a_dict

/-- C9: a single positional `None` argument is accepted by the input-spec
extraction as the empty text, and the corresponding `parseConfiguration`
call succeeds and returns an empty mapping. -/
theorem c9_none_positional (tok : String → List TokensGroup) (syms : Syms)
    (reg : Registry) (htok : tok "" = groups_empty_text) :
    extract_input_specs [PosArg.noneA] Option.none Option.none
        = .ok (.text "")
    ∧ parse_configuration tok syms reg defaultKw [PosArg.noneA]
        Option.none Option.none = .ok (reg, some [], [], []) := by
  refine ⟨rfl, ?_⟩
  show parse_configuration_core syms Option.none true true reg [] [] []
      (statements_of (tok "")) = .ok (reg, some [], [], [])
  rw [htok]
  rfl

/-- C9 witness: the pipeline run with the modelled tokenizer itself. -/
theorem c9_none_positional_witness :
    parse_configuration (fun _ => groups_empty_text) [] [] defaultKw
        [PosArg.noneA] Option.none Option.none = .ok ([], some [], [], []) :=
  (c9_none_positional (fun _ => groups_empty_text) [] [] rfl).2

/-- C2: parsing the single brace-notation statement
`config.outputFormat = \x7b type: "PNG", width: 123 \x7d` and parsing the two
dotted-path statements `config.outputFormat.type = "PNG"` /
`config.outputFormat.width = 123` produce the same configuration tree
`\x7b outputFormat: \x7b type: "PNG", width: 123 \x7d \x7d`, for every symbol
table and factory registry. -/
theorem c2_notation_equivalence (tok : String → List TokensGroup)
    (syms : Syms) (reg : Registry)
    (hA : tok "config.outputFormat = \x7b type: \"PNG\", width: 123 \x7d"
        = groups_brace_notation)
    (hB : tok "config.outputFormat.type = \"PNG\"\nconfig.outputFormat.width = 123"
        = groups_dotted_notation) :
    parse_configuration tok syms reg defaultKw
        [PosArg.strA "config.outputFormat = \x7b type: \"PNG\", width: 123 \x7d"]
        Option.none Option.none
      = .ok (reg,
             some [("outputFormat",
                    Value.dict [("type", Value.str "PNG"),
                                ("width", Value.int 123)])], [], [])
    ∧ parse_configuration tok syms reg defaultKw
        [PosArg.strA "config.outputFormat.type = \"PNG\"\nconfig.outputFormat.width = 123"]
        Option.none Option.none
      = .ok (reg,
             some [("outputFormat",
                    Value.dict [("type", Value.str "PNG"),
                                ("width", Value.int 123)])], [], []) := by
  constructor
  · show parse_configuration_core syms Option.none true true reg [] [] []
        (statements_of
          (tok "config.outputFormat = \x7b type: \"PNG\", width: 123 \x7d"))
        = _
    rw [hA]
    rfl
  · show parse_configuration_core syms Option.none true true reg [] [] []
        (statements_of
          (tok "config.outputFormat.type = \"PNG\"\nconfig.outputFormat.width = 123"))
        = _
    rw [hB]
    rfl

/-- C2 witness: the equivalence instantiated with the modelled tokenizer and
empty symbol table / registry. -/
theorem c2_notation_equivalence_witness :
    parse_configuration
        (fun t =>
          if t = "config.outputFormat = \x7b type: \"PNG\", width: 123 \x7d"
          then groups_brace_notation else groups_dotted_notation)
        [] [] defaultKw
        [PosArg.strA "config.outputFormat = \x7b type: \"PNG\", width: 123 \x7d"]
        Option.none Option.none
      = .ok ([],
             some [("outputFormat",
                    Value.dict [("type", Value.str "PNG"),
                                ("width", Value.int 123)])], [], []) :=
  (c2_notation_equivalence
    (fun t =>
      if t = "config.outputFormat = \x7b type: \"PNG\", width: 123 \x7d"
      then groups_brace_notation else groups_dotted_notation)
    [] [] rfl rfl).1

/-- C3 counterexample: the NUMBER group `1e5` contains no `.`, so the claim
says it resolves to an integer; the resolver instead fails, because Python
`int("1e5")` raises ValueError. -/
theorem c3_counterexample :
    (numGroup "1e5").ttype = .NUMBER
    ∧ hasChar (numGroup "1e5").text '.' = false
    ∧ resolve_value [] (numGroup "1e5") Option.none
        = .error (.intParseFailed "1e5") :=
  ⟨rfl, rfl, rfl⟩

/-- C3 (amended): with no factory supplied, a dotted-name group resolves to
the symbol-table entry for its exact text, else to the alias-table entry for
its lowercased text, else raises the unknown-symbol error; a numeric group
resolves to the float of its text when it contains `.` and to the integer of
its text otherwise, the respective conversion failing on ill-formed literal
texts; a group of any kind other than dotted-name, number or string raises
the resolution error. -/
theorem c3_resolve_value_cases (syms : Syms) (tg : TokensGroup) :
    (tg.ttype = .NAME →
      (∀ v, slookup syms tg.text = some v →
          resolve_value syms tg Option.none = .ok v)
      ∧ (slookup syms tg.text = Option.none →
          (∀ v, slookup SIMPLE_SYMBOLS (strLower tg.text) = some v →
              resolve_value syms tg Option.none = .ok v)
          ∧ (slookup SIMPLE_SYMBOLS (strLower tg.text) = Option.none →
              resolve_value syms tg Option.none
                = .error (.unknownSymbol tg.text))))
    ∧ (tg.ttype = .NUMBER →
      (hasChar tg.text '.' = true → floatTextOk tg.text = true →
          resolve_value syms tg Option.none = .ok (.float tg.text))
      ∧ (hasChar tg.text '.' = true → floatTextOk tg.text = false →
          resolve_value syms tg Option.none
            = .error (.floatParseFailed tg.text))
      ∧ (hasChar tg.text '.' = false → groupedDigits tg.text.toList = true →
          resolve_value syms tg Option.none
            = .ok (.int (digitsVal tg.text.toList 0)))
      ∧ (hasChar tg.text '.' = false → groupedDigits tg.text.toList = false →
          resolve_value syms tg Option.none
            = .error (.intParseFailed tg.text)))
    ∧ (tg.ttype ≠ .NAME → tg.ttype ≠ .NUMBER → tg.ttype ≠ .STRING →
        resolve_value syms tg Option.none
          = .error (.cannotUseValue tg.text)) := by
  refine ⟨?_, ?_, ?_⟩
  · intro hty
    have hd : tg.is_dotted_name = true := by
      simp [TokensGroup.is_dotted_name, hty]
    refine ⟨?_, ?_⟩
    · intro v hv
      simp [resolve_value, hd, hv]
    · intro hnone
      refine ⟨?_, ?_⟩
      · intro v hv
        simp [resolve_value, hd, hnone, hv]
      · intro hnone2
        simp [resolve_value, hd, hnone, hnone2]
  · intro hty
    have hd : tg.is_dotted_name = false := by
      simp [TokensGroup.is_dotted_name, hty]
    have hn : (tg.ttype == TType.NUMBER) = true := by simp [hty]
    refine ⟨?_, ?_, ?_, ?_⟩
    · intro hdot hfok
      simp [resolve_value, hd, hn, hdot, pyFloat, hfok]
    · intro hdot hfbad
      simp [resolve_value, hd, hn, hdot, pyFloat, hfbad]
    · intro hdot hgd
      simp only [resolve_value, hd, hn, hdot, pyInt]
      simp
      exact hgd
    · intro hdot hgd
      simp only [resolve_value, hd, hn, hdot, pyInt]
      simp
      exact hgd
  · intro h1 h2 h3
    have hd : tg.is_dotted_name = false := by
      simp [TokensGroup.is_dotted_name, h1]
    have hn : (tg.ttype == TType.NUMBER) = false := by simp [h2]
    have hs : (tg.ttype == TType.STRING) = false := by simp [h3]
    simp [resolve_value, hd, hn, hs]

/-- C3 witness: the amended behaviour evaluated at concrete groups: the
alias `Off`, the float literal `3.141`, the integer literal `42` and an
operator group. -/
theorem c3_resolve_value_cases_witness :
    resolve_value [] (nameGroup "Off") Option.none = .ok (Value.bool false)
    ∧ resolve_value [] (numGroup "3.141") Option.none
        = .ok (Value.float "3.141")
    ∧ resolve_value [] (numGroup "42") Option.none = .ok (Value.int 42)
    ∧ resolve_value [] (opGroup "=") Option.none
        = .error (.cannotUseValue "=") := by
  refine ⟨?_, ?_, ?_, ?_⟩
  · exact (((c3_resolve_value_cases [] (nameGroup "Off")).1 rfl).2 rfl).1
      (Value.bool false) rfl
  · exact ((c3_resolve_value_cases [] (numGroup "3.141")).2.1 rfl).1 rfl rfl
  · exact ((c3_resolve_value_cases [] (numGroup "42")).2.1 rfl).2.2.1 rfl rfl
  · exact (c3_resolve_value_cases [] (opGroup "=")).2.2
      (by decide) (by decide) (by decide)

theorem method_args_some_is_call (s : List TokensGroup)
    (args : List TokensGroup) (h : method_args s = .ok (some args)) :
    stmt_is_method_call s = true := by
  by_cases hc : stmt_is_method_call s = true
  · exact hc
  · exfalso
    simp only [method_args, Bool.not_eq_true] at h
    rw [Bool.not_eq_true] at hc
    simp [hc] at h

/-- C7: legacy method dispatch.  A method-call statement whose name is
absent from the signature table is returned unhandled; a declared
no-argument method called with at least one argument raises the hard error
naming the method; a general argument-taking method called with more
positional arguments than its signature describes is returned unhandled. -/
theorem c7_method_dispatch (syms : Syms) (o2n : Old2New)
    (s : List TokensGroup) (config control : AList) :
    (∀ g rest, s = g :: rest → stmt_is_method_call s = true →
        slookup MAP2 g.dotted_name = Option.none →
        convert_api_method syms o2n s config control
          = .ok (false, config, control))
    ∧ (∀ g rest key skQ v a args, s = g :: rest →
        slookup MAP2 g.dotted_name = some (.noArgs key skQ v) →
        method_args s = .ok (some (a :: args)) →
        convert_api_method syms o2n s config control
          = .error (.noArgsAccepted g.dotted_name))
    ∧ (∀ g rest specs args, s = g :: rest →
        slookup MAP2 g.dotted_name = some (.args specs) →
        method_args s = .ok (some args) → specs.length < args.length →
        convert_api_method syms o2n s config control
          = .ok (false, config, control)) := by
  refine ⟨?_, ?_, ?_⟩
  · intro g rest hs hc hm
    subst hs
    simp [convert_api_method, hc, hm]
  · intro g rest key skQ v a args hs hm hargs
    have hc := method_args_some_is_call s (a :: args) hargs
    subst hs
    simp [convert_api_method, hc, hm, hargs]
  · intro g rest specs args hs hm hargs hlen
    have hc := method_args_some_is_call s args hargs
    subst hs
    simp [convert_api_method, hc, hm, hargs, hlen]

/-- C7 witness: the three dispatch behaviours at concrete calls: the unknown
method `setFoo(on)`, the no-argument method `enableDebugMode(on)`, and
`setEncoding('a', 'b')` with two arguments for a one-argument signature. -/
theorem c7_method_dispatch_witness :
    convert_api_method [] []
        [nameGroup "setFoo", opGroup "(", nameGroup "on", opGroup ")"] [] []
      = .ok (false, [], [])
    ∧ convert_api_method [] []
        [nameGroup "enableDebugMode", opGroup "(", nameGroup "on", opGroup ")"]
        [] []
      = .error (.noArgsAccepted "enableDebugMode")
    ∧ convert_api_method [] []
        [nameGroup "setEncoding", opGroup "(", strGroup "'a'", opGroup ",",
         strGroup "'b'", opGroup ")"] [] []
      = .ok (false, [], []) := by
  refine ⟨?_, ?_, ?_⟩
  · exact (c7_method_dispatch [] [] _ [] []).1 _ _ rfl rfl rfl
  · exact (c7_method_dispatch [] [] _ [] []).2.1 _ _ "debugSettings"
      (some "appendLogs") (Value.bool true) (nameGroup "on") [] rfl rfl rfl
  · exact (c7_method_dispatch [] [] _ [] []).2.2 _ _
      [{ key := "encoding" }] [strGroup "'a'", strGroup "'b'"] rfl rfl rfl
      (by decide)

theorem run_statements_unused_extends (syms : Syms) (cv : Option ConvertFn)
    (stmts : List (List TokensGroup)) :
    ∀ reg config control u0 out,
      run_statements syms cv reg config control u0 stmts = .ok out →
      ∃ extra, out.2.2.2 = u0 ++ extra := by
  induction stmts with
  | nil =>
    intro reg config control u0 out h
    rw [run_statements] at h
    cases h
    exact ⟨[], by simp⟩
  | cons s rest ih =>
    intro reg config control u0 out h
    rw [run_statements] at h
    rcases e : try_convert cv s config control with er | ⟨claimed, config1, control1⟩
    · rw [e] at h
      simp at h
    · rw [e] at h
      cases claimed
      · by_cases ha : stmt_is_assignment s = true
        · simp only [ha, Bool.not_true, Bool.false_eq_true, if_false] at h
          rcases eu : update_config_dict syms reg config1 s with er | ⟨reg2, config2, b⟩
          · rw [eu] at h
            simp at h
          · rw [eu] at h
            exact ih reg2 config2 control1 u0 out h
        · rw [Bool.not_eq_true] at ha
          simp only [ha, Bool.not_false, Bool.false_eq_true, if_false,
            if_true] at h
          rcases ih reg config1 control1 (u0 ++ [s]) out h with ⟨extra, hex⟩
          exact ⟨s :: extra, by simpa using hex⟩
      · simp only [if_true] at h
        exact ih reg config1 control1 u0 out h

/-- C4: after the statement loop completes, the statements that were neither
claimed by the convert hook nor assignments extend the caller-supplied
`unused` list; when the caller did not supply one (`no_unused`) and at least
one such statement exists, the call fails naming the first one's rendered
text and whether more exist; when the caller did supply one, the call
succeeds with those statements appended. -/
theorem c4_unused_statements (syms : Syms) (cv : Option ConvertFn)
    (reg : Registry) (config control : AList)
    (u0 stmts : List (List TokensGroup)) (reg2 : Registry)
    (config2 control2 : AList) (unused2 : List (List TokensGroup))
    (rc : Bool)
    (hrun : run_statements syms cv reg config control u0 stmts
      = .ok (reg2, config2, control2, unused2)) :
    (∃ extra, unused2 = u0 ++ extra)
    ∧ (∀ first more rendered, unused2 = first :: more →
        stmt_str first = some rendered →
        parse_configuration_core syms cv true rc reg config control u0 stmts
          = .error (.unsupportedStatements (more.length + 1) rendered
              (!more.isEmpty)))
    ∧ parse_configuration_core syms cv false rc reg config control u0 stmts
        = .ok (reg2, if rc then some config2 else Option.none, control2,
               unused2) := by
  refine ⟨?_, ?_, ?_⟩
  · exact run_statements_unused_extends syms cv stmts reg config control u0 _
      hrun
  · intro first more rendered hu hstr
    unfold parse_configuration_core
    rw [hrun, hu]
    simp [hstr]
  · unfold parse_configuration_core
    rw [hrun]
    cases unused2 with
    | nil => rfl
    | cons first more => rfl

/-- C4 witness: a single unclaimed control command `strict on`; without an
`unused` option the call fails naming its rendered text, with one it
succeeds. -/
theorem c4_unused_statements_witness :
    parse_configuration_core [] Option.none true true [] [] [] []
        [stmt_strict_on]
      = .error (.unsupportedStatements 1 "strict on" false)
    ∧ parse_configuration_core [] Option.none false true [] [] [] []
        [stmt_strict_on]
      = .ok ([], some [], [], [stmt_strict_on]) := by
  have h := c4_unused_statements [] Option.none [] [] [] [] [stmt_strict_on]
    [] [] [] [stmt_strict_on] true rfl
  exact ⟨h.2.1 stmt_strict_on [] "strict on" rfl rfl, h.2.2⟩

theorem upd_stmt_a_dict (syms : Syms) (reg : Registry) (config : AList)
    (h : fkLookup reg [some "a"] = Option.none) :
    update_config_dict syms reg config stmt_a_dict
      = .ok (reg ++ [([some "a"], Factory.dict)],
             alSet config "x" (Value.int 1), true) := by
  have haf := another_factory_fresh reg Factory.dict [some "a"] h
  have step : update_config_dict syms reg config stmt_a_dict
      = (match (match another_factory reg Factory.dict [some "a"] with
                | .error e => Except.error e
                | .ok (r, _) => Except.ok r) with
         | .error e => Except.error e
         | .ok reg2 =>
           match dictBodyLoop syms "\x7d" Option.none Option.none Option.none
                   config [nameGroup "x", opGroup ":", numGroup "1",
                           opGroup "\x7d"] with
           | .error e => Except.error e
           | .ok c2 => Except.ok (reg2, c2, true)) := rfl
  rw [step, haf]
  rfl

theorem upd_stmt_a_tuple_conflict (syms : Syms) (reg : Registry)
    (config : AList) (h : fkLookup reg [some "a"] = some Factory.dict) :
    update_config_dict syms reg config stmt_a_tuple
      = .error (.factoriesConflict [some "a"]) := by
  have haf := another_factory_mismatch reg Factory.tuple Factory.dict
    [some "a"] h (by decide)
  have step : update_config_dict syms reg config stmt_a_tuple
      = (match (match another_factory reg Factory.tuple [some "a"] with
                | .error e => Except.error e
                | .ok (r, _) => Except.ok (r, Factory.tuple)) with
         | .error e => Except.error e
         | .ok (reg2, tipf) =>
           match seqBodyLoop syms ")" Option.none Option.none []
                   [numGroup "1", opGroup ",", numGroup "2", opGroup ")"] with
           | .error e => Except.error e
           | .ok vals =>
             match pyContainerCall tipf vals with
             | .error e => Except.error e
             | .ok v => Except.ok (reg2, alSet config "a" v, true)) := rfl
  rw [step, haf]

theorem upd_stmt_a_dict2_same (syms : Syms) (reg : Registry) (config : AList)
    (h : fkLookup reg [some "a"] = some Factory.dict) :
    update_config_dict syms reg config stmt_a_dict2
      = .ok (reg, alSet config "y" (Value.int 2), true) := by
  have haf := another_factory_same reg Factory.dict [some "a"] h
  have step : update_config_dict syms reg config stmt_a_dict2
      = (match (match another_factory reg Factory.dict [some "a"] with
                | .error e => Except.error e
                | .ok (r, _) => Except.ok r) with
         | .error e => Except.error e
         | .ok reg2 =>
           match dictBodyLoop syms "\x7d" Option.none Option.none Option.none
                   config [nameGroup "y", opGroup ":", numGroup "2",
                           opGroup "\x7d"] with
           | .error e => Except.error e
           | .ok c2 => Except.ok (reg2, c2, true)) := rfl
  rw [step, haf]
  rfl

/-- C1: on a path `a` unknown to the static factory table and not yet in the
learned-factory registry, processing `a = \x7b x: 1 \x7d` registers the
mapping kind for the path; then processing `a = (1, 2)` — the same path with
a conflicting container kind — raises the factories-conflict error, while
re-processing the same container kind (`a = \x7b y: 2 \x7d`) succeeds with
the registry unchanged. -/
theorem c1_container_kind_conflict (syms : Syms) (reg : Registry)
    (config : AList) (hreg : fkLookup reg [some "a"] = Option.none) :
    update_config_dict syms reg config stmt_a_dict
      = .ok (reg ++ [([some "a"], Factory.dict)],
             alSet config "x" (Value.int 1), true)
    ∧ update_config_dict syms (reg ++ [([some "a"], Factory.dict)])
        (alSet config "x" (Value.int 1)) stmt_a_tuple
      = .error (.factoriesConflict [some "a"])
    ∧ update_config_dict syms (reg ++ [([some "a"], Factory.dict)])
        (alSet config "x" (Value.int 1)) stmt_a_dict2
      = .ok (reg ++ [([some "a"], Factory.dict)],
             alSet (alSet config "x" (Value.int 1)) "y" (Value.int 2),
             true) := by
  have hl := fkLookup_append_self reg [some "a"] Factory.dict hreg
  exact ⟨upd_stmt_a_dict syms reg config hreg,
         upd_stmt_a_tuple_conflict syms _ _ hl,
         upd_stmt_a_dict2_same syms _ _ hl⟩

/-- C1 witness: the conflict evaluated from the empty registry and empty
config. -/
theorem c1_container_kind_conflict_witness :
    update_config_dict [] [] [] stmt_a_dict
      = .ok ([([some "a"], Factory.dict)], [("x", Value.int 1)], true)
    ∧ update_config_dict [] [([some "a"], Factory.dict)]
        [("x", Value.int 1)] stmt_a_tuple
      = .error (.factoriesConflict [some "a"])
    ∧ update_config_dict [] [([some "a"], Factory.dict)]
        [("x", Value.int 1)] stmt_a_dict2
      = .ok ([([some "a"], Factory.dict)],
             [("x", Value.int 1), ("y", Value.int 2)], true) :=
  c1_container_kind_conflict [] [] [] rfl

/-- C10: the learned-factory registry persists across `parseConfiguration`
calls (the module-level global, threaded here as the registry state): a
first call parsing `a = \x7b x: 1 \x7d` on a fresh empty config registers
the mapping kind for path `a`, and every later call that starts from any
registry still carrying that entry and parses `a = (1, 2)` on its own fresh
config fails with the factories-conflict error, although the two calls share
no configuration tree. -/
theorem c10_registry_persistence (syms : Syms) (reg : Registry)
    (hreg : fkLookup reg [some "a"] = Option.none) :
    parse_configuration_core syms Option.none true true reg [] [] []
        [stmt_a_dict]
      = .ok (reg ++ [([some "a"], Factory.dict)], some [("x", Value.int 1)],
             [], [])
    ∧ fkLookup (reg ++ [([some "a"], Factory.dict)]) [some "a"]
        = some Factory.dict
    ∧ (∀ (reg' : Registry) (config0 control0 : AList),
        fkLookup reg' [some "a"] = some Factory.dict →
        parse_configuration_core syms Option.none true true reg' config0
            control0 [] [stmt_a_tuple]
          = .error (.factoriesConflict [some "a"])) := by
  refine ⟨?_, fkLookup_append_self reg [some "a"] Factory.dict hreg, ?_⟩
  · have h1 := upd_stmt_a_dict syms reg [] hreg
    unfold parse_configuration_core
    simp only [run_statements, try_convert, h1]
    rfl
  · intro reg' config0 control0 hreg'
    have h1 := upd_stmt_a_tuple_conflict syms reg' config0 hreg'
    unfold parse_configuration_core
    simp only [run_statements, try_convert, h1]
    rfl

/-- C10 witness: the two calls chained from the empty registry. -/
theorem c10_registry_persistence_witness :
    parse_configuration_core [] Option.none true true [] [] [] []
        [stmt_a_dict]
      = .ok ([([some "a"], Factory.dict)], some [("x", Value.int 1)], [], [])
    ∧ parse_configuration_core [] Option.none true true
        [([some "a"], Factory.dict)] [] [] [] [stmt_a_tuple]
      = .error (.factoriesConflict [some "a"]) := by
  have h := c10_registry_persistence [] [] rfl
  exact ⟨h.1, h.2.2 [([some "a"], Factory.dict)] [] [] rfl⟩

theorem resolve_method_arg_yes (syms : Syms) (o2n : Old2New)
    (hy1 : slookup syms "yes" = Option.none)
    (hy2 : slookup o2n "yes" = Option.none) :
    resolve_method_arg syms o2n (nameGroup "yes") = .ok (Value.bool true) := by
  have step : resolve_method_arg syms o2n (nameGroup "yes")
      = (match slookup o2n "yes" with
         | some (some newName) =>
           match slookup syms newName with
           | some v => Except.ok v
           | Option.none => Except.error (Err.keyErrorSymbol newName)
         | some Option.none => Except.error (Err.keyErrorSymbol "None")
         | Option.none =>
           match slookup syms "yes" with
           | some v => Except.ok v
           | Option.none =>
             resolve_value syms (nameGroup "yes") Option.none) := rfl
  have step2 : resolve_value syms (nameGroup "yes") Option.none
      = (match slookup syms "yes" with
         | some v => Except.ok v
         | Option.none =>
           match slookup SIMPLE_SYMBOLS (strLower "yes") with
           | some v => Except.ok v
           | Option.none => Except.error (Err.unknownSymbol "yes")) := rfl
  rw [step, hy2, hy1, step2, hy1]
  rfl

/-- C8: with the legacy method adapter installed as the convert hook, and
for every symbol / legacy-name table in which `yes` is not a key (true of
the real tables, whose keys are dotted resp. ALL_CAPS names), parsing
`setAddLinks(yes)` yields the tree with `disableLinks` set to the negated
boolean `False`, and parsing `enableDebugMode()` yields the nested
`debugSettings.appendLogs = True` tree. -/
theorem c8_legacy_method_examples (tok : String → List TokensGroup)
    (syms : Syms) (o2n : Old2New) (reg : Registry)
    (hy1 : slookup syms "yes" = Option.none)
    (hy2 : slookup o2n "yes" = Option.none)
    (htokA : tok "setAddLinks(yes)" = groups_setAddLinks_yes)
    (htokB : tok "enableDebugMode()" = groups_enableDebugMode) :
    parse_configuration tok syms reg (legacyKw syms o2n)
        [PosArg.strA "setAddLinks(yes)"] Option.none Option.none
      = .ok (reg, some [("disableLinks", Value.bool false)], [], [])
    ∧ parse_configuration tok syms reg (legacyKw syms o2n)
        [PosArg.strA "enableDebugMode()"] Option.none Option.none
      = .ok (reg, some [("debugSettings",
                         Value.dict [("appendLogs", Value.bool true)])],
             [], []) := by
  have hra := resolve_method_arg_yes syms o2n hy1 hy2
  constructor
  · have hcam : convert_api_method syms o2n
        [nameGroup "setAddLinks", opGroup "(", nameGroup "yes", opGroup ")"]
        [] [] = .ok (true, [("disableLinks", Value.bool false)], []) := by
      have step : convert_api_method syms o2n
          [nameGroup "setAddLinks", opGroup "(", nameGroup "yes",
           opGroup ")"] [] []
          = (match (match resolve_method_arg syms o2n (nameGroup "yes") with
                    | .error e => Except.error e
                    | .ok v0 =>
                      Except.ok
                        [("disableLinks", Value.bool (!pyTruthy v0))]) with
             | .error e => Except.error e
             | .ok config2 =>
               Except.ok (true, config2, ([] : AList))) := rfl
      rw [step, hra]
      rfl
    show parse_configuration_core syms (some (legacy_convert syms o2n)) true
        true reg [] [] [] (statements_of (tok "setAddLinks(yes)")) = _
    rw [htokA]
    have e2 : statements_of groups_setAddLinks_yes
        = [[nameGroup "setAddLinks", opGroup "(", nameGroup "yes",
            opGroup ")"]] := rfl
    rw [e2]
    unfold parse_configuration_core
    simp only [run_statements, try_convert, legacy_convert, hcam]
    rfl
  · show parse_configuration_core syms (some (legacy_convert syms o2n)) true
        true reg [] [] [] (statements_of (tok "enableDebugMode()")) = _
    rw [htokB]
    rfl

/-- C8 witness: the two calls with the modelled tokenizer and empty
tables. -/
theorem c8_legacy_method_examples_witness :
    parse_configuration
        (fun t => if t = "setAddLinks(yes)" then groups_setAddLinks_yes
                  else groups_enableDebugMode)
        [] [] (legacyKw [] []) [PosArg.strA "setAddLinks(yes)"]
        Option.none Option.none
      = .ok ([], some [("disableLinks", Value.bool false)], [], []) :=
  (c8_legacy_method_examples
    (fun t => if t = "setAddLinks(yes)" then groups_setAddLinks_yes
              else groups_enableDebugMode)
    [] [] [] rfl rfl rfl rfl).1

theorem split_spec_cons (prevQ : Option TokensGroup)
    (buf : List TokensGroup) (g : TokensGroup) (rest : List TokensGroup) :
    split_spec prevQ buf (g :: rest)
      = if g.is_terminator then
          if skipCond prevQ buf then split_spec (some g) buf rest
          else (buf :: (split_spec (some g) [] rest).1,
                (split_spec (some g) [] rest).2)
        else split_spec (some g) (buf ++ [g]) rest := by
  conv_lhs => rw [split_spec.eq_def]
  rfl

theorem splitterStep_eq (stmts : List (List TokensGroup))
    (buf : List TokensGroup) (prevQ : Option TokensGroup) (g : TokensGroup)
    (nQ : Option TokensGroup) :
    splitterStep (stmts, buf) (prevQ, g, nQ)
      = if g.is_terminator then
          if skipCond prevQ buf then (stmts, buf)
          else (stmts ++ [buf], [])
        else (stmts, buf ++ [g]) := by
  rw [splitterStep.eq_def]
  by_cases ht : g.is_terminator
  · simp only [ht, if_true]
    by_cases hb : buf.isEmpty
    · simp [skipCond, hb]
    · rcases prevQ with _ | p
      · simp [skipCond, hb]
      · by_cases ho : p.opens_brace
        · simp [skipCond, hb, ho]
        · by_cases hcm : (p.ttype == TType.OP && p.text == ",") = true
          · simp [skipCond, hb, ho, hcm]
          · simp [skipCond, hb, ho, hcm]
  · simp [ht]

theorem slide_foldl_split (gs : List TokensGroup) :
    ∀ (prevQ : Option TokensGroup) (stmts : List (List TokensGroup))
      (buf : List TokensGroup),
      (slideAux prevQ gs).foldl splitterStep (stmts, buf)
        = (stmts ++ (split_spec prevQ buf gs).1,
           (split_spec prevQ buf gs).2) := by
  induction gs with
  | nil =>
    intro prevQ stmts buf
    simp [slideAux, split_spec]
  | cons g rest ih =>
    intro prevQ stmts buf
    rw [slideAux, List.foldl_cons, splitterStep_eq, split_spec_cons]
    by_cases ht : g.is_terminator
    · by_cases hsk : skipCond prevQ buf
      · simp only [ht, hsk, if_true]
        exact ih (some g) stmts buf
      · simp only [ht, if_true, hsk, Bool.false_eq_true, if_false]
        rw [ih (some g) (stmts ++ [buf]) []]
        simp [List.append_assoc]
    · simp only [ht, Bool.false_eq_true, if_false]
      exact ih (some g) stmts (buf ++ [g])

theorem split_spec_no_terminator (gs : List TokensGroup) :
    ∀ (prevQ : Option TokensGroup) (buf : List TokensGroup),
      (∀ g ∈ buf, g.is_terminator = false) →
      ∀ s ∈ (split_spec prevQ buf gs).1, ∀ g ∈ s,
        g.is_terminator = false := by
  induction gs with
  | nil =>
    intro prevQ buf hbuf s hs
    rw [split_spec] at hs
    simp at hs
  | cons g rest ih =>
    intro prevQ buf hbuf s hs
    rw [split_spec_cons] at hs
    by_cases ht : g.is_terminator
    · by_cases hsk : skipCond prevQ buf
      · rw [if_pos ht, if_pos hsk] at hs
        exact ih (some g) buf hbuf s hs
      · rw [if_pos ht, if_neg hsk] at hs
        simp only [List.mem_cons] at hs
        rcases hs with hs | hs
        · subst hs
          exact hbuf
        · exact ih (some g) [] (by simp) s hs
    · rw [if_neg ht] at hs
      refine ih (some g) (buf ++ [g]) ?_ s hs
      intro x hx
      rcases List.mem_append.mp hx with hx | hx
      · exact hbuf x hx
      · rw [List.mem_singleton] at hx
        subst hx
        rw [Bool.not_eq_true] at ht
        exact ht

theorem split_spec_flush (gs : List TokensGroup) :
    ∀ (p : TokensGroup) (buf : List TokensGroup) (t : TokensGroup),
      lastElem gs = some t → t.is_terminator = true →
      (∀ q, penult (p :: gs) = some q →
        q.opens_brace = false
          ∧ (q.ttype == TType.OP && q.text == ",") = false) →
      (split_spec (some p) buf gs).2 = [] := by
  induction gs with
  | nil =>
    intro p buf t hlast
    simp [lastElem] at hlast
  | cons g rest ih =>
    intro p buf t hlast hterm hpen
    cases rest with
    | nil =>
      have hg : g = t := by
        simpa [lastElem] using hlast
      subst hg
      have hp := hpen p (by rfl)
      rw [split_spec_cons, if_pos hterm]
      by_cases hsk : skipCond (some p) buf
      · rw [if_pos hsk]
        rw [split_spec]
        have hb : buf.isEmpty = true := by
          have h := hsk
          simp only [skipCond, hp.1, hp.2, Bool.or_false] at h
          exact h
        simpa using hb
      · rw [if_neg hsk]
        rw [split_spec]
    | cons g2 rest2 =>
      have hlast2 : lastElem (g2 :: rest2) = some t := by
        simpa [lastElem] using hlast
      have hpen2 : ∀ q, penult (g :: g2 :: rest2) = some q →
          q.opens_brace = false
            ∧ (q.ttype == TType.OP && q.text == ",") = false := by
        intro q hq
        exact hpen q (by simpa [penult] using hq)
      rw [split_spec_cons]
      by_cases ht : g.is_terminator
      · by_cases hsk : skipCond (some p) buf
        · rw [if_pos ht, if_pos hsk]
          exact ih g buf t hlast2 hterm hpen2
        · rw [if_pos ht, if_neg hsk]
          exact ih g [] t hlast2 hterm hpen2
      · rw [if_neg ht]
        exact ih g (buf ++ [g]) t hlast2 hterm hpen2

/-- C6 counterexample: the group sequence `appendix (` followed by a newline
terminator ends in a terminator, yet after it the splitter still holds
buffered groups (the terminator's predecessor opens a brace, so no statement
is flushed and the source's trailing assertion fails) — contradicting the
claim that no buffered groups remain after the final terminator. -/
theorem c6_counterexample :
    lastElem groups_dangling_open = some newlineGroup
    ∧ newlineGroup.is_terminator = true
    ∧ (generate_statements groups_dangling_open).2
        = [nameGroup "appendix", opGroup "("]
    ∧ (generate_statements groups_dangling_open).2 ≠ [] :=
  ⟨rfl, rfl, rfl, by decide⟩

/-- C6 (amended): the statement splitter emits a new statement at exactly
those terminator groups where the buffered groups are non-empty, the
immediately preceding group does not open a brace, and the immediately
preceding group is not a comma operator (the refinement to `split_spec`,
which is those conditions verbatim); terminator groups are never included in
an emitted statement; and after the final terminator no buffered groups
remain, provided the group immediately preceding the final terminator
neither opens a brace nor is a comma operator — otherwise buffered groups do
remain. -/
theorem c6_statement_splitter :
    (∀ gs : List TokensGroup,
      generate_statements gs = split_spec Option.none [] gs)
    ∧ (∀ (gs : List TokensGroup) s g, s ∈ (generate_statements gs).1 →
        g ∈ s → g.is_terminator = false)
    ∧ (∀ (gs : List TokensGroup) (t : TokensGroup),
        lastElem gs = some t → t.is_terminator = true →
        (∀ q, penult gs = some q →
          q.opens_brace = false
            ∧ (q.ttype == TType.OP && q.text == ",") = false) →
        (generate_statements gs).2 = []) := by
  have href : ∀ gs : List TokensGroup,
      generate_statements gs = split_spec Option.none [] gs := by
    intro gs
    unfold generate_statements sequence_slide
    rw [slide_foldl_split gs Option.none [] []]
    simp
  refine ⟨href, ?_, ?_⟩
  · intro gs s g hs hg
    rw [href] at hs
    exact split_spec_no_terminator gs Option.none [] (by simp) s hs g hg
  · intro gs t hlast hterm hpen
    rw [href]
    cases gs with
    | nil => simp [lastElem] at hlast
    | cons g rest =>
      cases rest with
      | nil =>
        have hg : g = t := by simpa [lastElem] using hlast
        subst hg
        rw [split_spec_cons, if_pos hterm, if_pos (by simp [skipCond])]
        rw [split_spec]
      | cons g2 rest2 =>
        have hlast2 : lastElem (g2 :: rest2) = some t := by
          simpa [lastElem] using hlast
        rw [split_spec_cons]
        by_cases ht : g.is_terminator
        · rw [if_pos ht, if_pos (by simp [skipCond])]
          exact split_spec_flush (g2 :: rest2) g [] t hlast2 hterm hpen
        · rw [if_neg ht]
          exact split_spec_flush (g2 :: rest2) g ([] ++ [g]) t hlast2 hterm
            hpen

/-- C6 witness: the amended flush property at the sequence `a` newline. -/
theorem c6_statement_splitter_witness :
    (generate_statements [nameGroup "a", newlineGroup]).2 = [] := by
  refine c6_statement_splitter.2.2 [nameGroup "a", newlineGroup]
    newlineGroup rfl rfl ?_
  intro q hq
  have hqa : nameGroup "a" = q := by simpa [penult] using hq
  subst hqa
  decide

end Parsecfg
